import Mathlib

/-!
Shallow embedding of torch/fx/experimental/proxy_tensor.py (the
operation-interception tracer) and proofs about its slot registry,
operation-recording algorithm and symbolic-scalar dispatch.

Conventions of the embedding:
* Python object identity is modelled by numeric ids (tensors, SymNode
  wrappers, script objects, thunks).
* Machine state that the functions mutate (the three per-tracer trackers,
  the FX graph, the thunk store) is threaded explicitly as a `TrState`;
  fallible code returns `Except TrErr`.
* External collaborators (the kernel executor, decomposition tables) are
  passed in as function parameters, mirroring the narrow interfaces of the
  source.
-/

namespace ProxyTensor

/-- Python scalar values that occur as node constants, literals and
tensor elements.  Floats are modelled as rationals. -/
inductive ScalarVal where
  | i (n : Int)
  | b (v : Bool)
  | f (q : Rat)
  deriving DecidableEq, Repr

/-- Which of the `py_sym_types` a symbolic-scalar wrapper is
(`SymInt`, `SymBool`, `SymFloat`). -/
inductive SymKind where
  | symInt
  | symBool
  | symFloat
  deriving DecidableEq, Repr

/-- A symbolic-scalar wrapper object (`SymInt`/`SymBool`/`SymFloat`):
a freshly allocated wrapper (`objId`) around an underlying `SymNode`
(`nodeId`).  `nodeConstant` models `e.node.constant`, `exprIsNumber`
models `e.node.expr.is_number` and `exprVal` is the numeric value of the
expression (its hint when not a number). -/
structure SymObj where
  objId : Nat
  nodeId : Nat
  kind : SymKind
  nodeConstant : Option ScalarVal
  exprIsNumber : Bool
  exprVal : ScalarVal
  deriving DecidableEq, Repr

/-- The exact Python type of a tensor-like object, as used by the
`type(x) in HANDLED_TYPES` test in `proxy_call`. -/
inductive PyTensorType where
  | plainTensor
  | parameter
  | fakeTensor
  | otherSubclass (name : String)
  deriving DecidableEq, Repr

/-- A size/stride/numel entry of a tensor: a concrete int or a `SymInt`
wrapper. -/
inductive DimVal where
  | lit (n : Int)
  | symD (s : SymObj)
  deriving DecidableEq, Repr

/-- The concrete (hint) value of a dimension entry. -/
def DimVal.hint : DimVal → Int
  | .lit n => n
  | .symD s =>
    match s.exprVal with
    | .i n => n
    | .b v => if v then 1 else 0
    | .f q => q.floor

/-- A runtime tensor object.  `tid` is its Python object identity;
`isFake` models the external `is_fake` predicate; `data` models the
element values (consulted only through the opaque kernel executor). -/
structure TensorData where
  tid : Nat
  ty : PyTensorType
  isFake : Bool
  isSparse : Bool
  dtype : String
  numelD : DimVal
  shape : List DimVal
  strideL : List DimVal
  storageOffset : DimVal
  data : List ScalarVal
  deriving DecidableEq, Repr

/-- A runtime value as it occurs in argument/result trees.  `proxyV`
is a raw `fx.Proxy` object occurring as a value (the constant-argument
list keeps slot-fetched proxies of script objects as-is). -/
inductive RtVal where
  | tensor (t : TensorData)
  | symV (s : SymObj)
  | scriptObj (oid : Nat)
  | plain (v : ScalarVal)
  | backwardState (oid : Nat)
  | proxyV (p : Nat)
  | noneV
  deriving DecidableEq, Repr

/-- A pytree of values: leaves, sequences and string-keyed mappings
(the cases `track_tensor_tree` distinguishes). -/
inductive PyTree (α : Type) where
  | leaf (a : α)
  | listT (xs : List (PyTree α))
  | dictT (xs : List (String × PyTree α))

mutual

/-- Source: `pytree.tree_flatten`, restricted to the leaves (the spec part is
recovered by the tree structure itself). -/
def PyTree.flatten {α : Type} : PyTree α → List α
  | .leaf a => [a]
  | .listT xs => PyTree.flattenL xs
  | .dictT xs => PyTree.flattenD xs

/-- Leaves of a list of pytrees, in order. -/
def PyTree.flattenL {α : Type} : List (PyTree α) → List α
  | [] => []
  | x :: xs => x.flatten ++ PyTree.flattenL xs

/-- Leaves of a string-keyed mapping of pytrees, in insertion order. -/
def PyTree.flattenD {α : Type} : List (String × PyTree α) → List α
  | [] => []
  | (_, x) :: xs => x.flatten ++ PyTree.flattenD xs

end

mutual

/-- Structure-preserving elementwise map over a pytree.  In the source
this is written as `tree_unflatten(map f (tree_flatten t).1, spec)`,
which is the same function since un/flattening with the original spec
is the identity on structure. -/
def PyTree.mapLeaves {α β : Type} (f : α → β) : PyTree α → PyTree β
  | .leaf a => .leaf (f a)
  | .listT xs => .listT (PyTree.mapLeavesL f xs)
  | .dictT xs => .dictT (PyTree.mapLeavesD f xs)

/-- Elementwise map over a list of pytrees. -/
def PyTree.mapLeavesL {α β : Type} (f : α → β) : List (PyTree α) → List (PyTree β)
  | [] => []
  | x :: xs => x.mapLeaves f :: PyTree.mapLeavesL f xs

/-- Elementwise map over a mapping of pytrees. -/
def PyTree.mapLeavesD {α β : Type} (f : α → β) :
    List (String × PyTree α) → List (String × PyTree β)
  | [] => []
  | (k, x) :: xs => (k, x.mapLeaves f) :: PyTree.mapLeavesD f xs

end

/-- Source: `pytree.tree_all_only(Tensor, pred, t)`: every tensor leaf satisfies
the predicate. -/
def PyTree.allTensors (p : TensorData → Bool) (t : PyTree RtVal) : Bool :=
  t.flatten.all fun v =>
    match v with
    | .tensor td => p td
    | _ => true

/-- An operator identifier (`OpOverload`): overload-packet name plus
overload name, e.g. `aten.lift_fresh.default`. -/
structure OpId where
  packet : String
  overload : String
  deriving DecidableEq, Repr

/-- The `torch.Tag`s consulted by `proxy_call`. -/
inductive OpTag where
  | dataDependentOutput
  | nondeterministicSeeded
  | pointwise
  deriving DecidableEq, Repr

/-- Static information about an operator: its identifier and tags. -/
structure OpInfo where
  oid : OpId
  tags : List OpTag
  deriving DecidableEq, Repr

def aten_lift_fresh : OpId := ⟨"lift_fresh", "default"⟩
def aten_lift_fresh_copy : OpId := ⟨"lift_fresh_copy", "default"⟩
def aten_size_default : OpId := ⟨"size", "default"⟩
def aten_stride_default : OpId := ⟨"stride", "default"⟩
def aten_storage_offset_default : OpId := ⟨"storage_offset", "default"⟩
def aten_sym_size_int : OpId := ⟨"sym_size", "int"⟩
def aten_sym_stride_int : OpId := ⟨"sym_stride", "int"⟩
def aten_sym_numel_default : OpId := ⟨"sym_numel", "default"⟩
def aten_sym_storage_offset_default : OpId := ⟨"sym_storage_offset", "default"⟩
def operator_getitem : OpId := ⟨"getitem", ""⟩
def operator_mul : OpId := ⟨"mul", ""⟩

/-- Source: `CONSTANT_NUMEL_LIMIT` (proxy_tensor.py line 77). -/
def CONSTANT_NUMEL_LIMIT : Int := 1

/-- A Proxy is a handle to a graph node; we identify it with the node's
index in the tracer's graph (nodes are append-only). -/
abbrev Proxy := Nat

/-- Source: `_ProxyTensor`: the tensor-tracker slot value — a proxy plus an
optional captured constant. -/
structure _ProxyTensor where
  proxy : Proxy
  constant : Option TensorData
  deriving DecidableEq, Repr

/-- An argument of a graph node after argument mapping: a proxy, a
substituted scalar literal, or a runtime value passed through unmapped
(unbound tensors/objects and plain data). -/
inductive MappedArg where
  | prox (p : Proxy)
  | lit (v : ScalarVal)
  | litS (k : String)
  | rtv (v : RtVal)
  deriving DecidableEq, Repr

/-- A graph node: `call_function` target, mapped arguments, display
name, value snapshot (`meta['val']`) and the low-precision-pointwise
marker used by `_maybe_record_pointwise_barrier`. -/
structure Node where
  target : OpId
  args : List (PyTree MappedArg)
  kwargs : List (String × PyTree MappedArg)
  name : String
  meta : Option (PyTree RtVal)
  lowPrecisionPointwiseBarrier : Bool

/-- The deferred computation wrapped by a `Thunk` producing a Proxy:
either an already-known proxy (`thunkify(lambda: proxy)` in
`track_tensor_tree`), a lazily created metadata node (`try_set_proxy_slot`
in `track_tensor`), or `ProxySymDispatchMode._compute_proxy`. -/
inductive ThunkComp where
  | retProxy (p : Proxy)
  | mkMetaNode (op : OpId) (args : List (PyTree MappedArg)) (metaVal : PyTree RtVal)
  | computeProxy (func : OpId) (args : List RtVal) (out : SymObj)

/-- A `Thunk` object: its deferred computation plus memo cell. -/
structure ThunkEntry where
  comp : ThunkComp
  memo : Option Proxy

/-- The mutable state owned by one tracer: the three identity-keyed
trackers of the Slot Registry, the growing graph, the thunk store
(thunk objects are identified by ids, their memo cells live here), the
runtime `.proxy` attributes `proxy_call` sets on tensors for in-place
ops, and a fresh-id counter for object allocation.  The association
lists are most-recent-first: `List.lookup` finds the latest binding. -/
structure TrState where
  tensor_tracker : List (Nat × _ProxyTensor)
  script_object_tracker : List (Nat × Proxy)
  symnode_tracker : List (Nat × Nat)
  thunks : List (Nat × ThunkEntry)
  graph : List Node
  attrProxy : List (Nat × Proxy)
  nextId : Nat

/-- Errors raised by the embedded code.  `trackingError` is the
`RuntimeError` of `get_proxy_slot` on an unbound slot (the spec's
TrackingError); `dataDependentError` is the strict-mode `RuntimeError`
of the data-dependent guard; `assertionError` covers failed `assert`s
and indexing errors; `fuelExhausted` bounds re-entrant thunk forcing
(unreachable for the executions considered here). -/
inductive TrErr where
  | trackingError
  | dataDependentError
  | assertionError
  | fuelExhausted
  deriving DecidableEq, Repr

/-- A value identifying which tracker a runtime value is keyed in,
mirroring the `isinstance` dispatch of `set_proxy_slot`/`get_proxy_slot`. -/
inductive Trackable where
  | tensorK (t : TensorData)
  | objK (oid : Nat)
  | symK (s : SymObj)

/-- What a slot holds, depending on the kind of key: tensors map to a
`_ProxyTensor`, script objects to a `Proxy`, symbolic scalars to a
`Thunk` (identified by its id in the thunk store). -/
inductive SlotPayload where
  | tensorP (pt : _ProxyTensor)
  | objP (p : Proxy)
  | symP (thunkId : Nat)
  deriving DecidableEq, Repr

/-- A key together with its (typed, per the overloads) payload. -/
inductive SlotBinding where
  | tensorB (t : TensorData) (pt : _ProxyTensor)
  | objB (oid : Nat) (p : Proxy)
  | symB (s : SymObj) (thunkId : Nat)

/-- Source: `set_proxy_slot` (proxy_tensor.py lines 152-173).  Tensors and
script objects clobber any existing entry; symbolic scalars never
clobber a pre-existing entry, and per `_SymNodeDict` (lines 768-793)
are keyed by the underlying `SymNode` (`key.node`), not the wrapper. -/
def set_proxy_slot (b : SlotBinding) (s : TrState) : TrState :=
  match b with
  | .tensorB t pt =>
    { s with tensor_tracker := (t.tid, pt) :: s.tensor_tracker }
  | .objB oid p =>
    { s with script_object_tracker := (oid, p) :: s.script_object_tracker }
  | .symB so thunkId =>
    if (s.symnode_tracker.lookup so.nodeId).isSome then s
    else { s with symnode_tracker := (so.nodeId, thunkId) :: s.symnode_tracker }

/-- Tracker selection plus membership/value lookup, as in the body of
`get_proxy_slot` (`tracker = ...; obj in tracker; tracker[obj]`). -/
def lookup_tracker (obj : Trackable) (s : TrState) : Option SlotPayload :=
  match obj with
  | .tensorK t => (s.tensor_tracker.lookup t.tid).map .tensorP
  | .objK oid => (s.script_object_tracker.lookup oid).map .objP
  | .symK so => (s.symnode_tracker.lookup so.nodeId).map .symP

/-- Source: `get_proxy_slot` (proxy_tensor.py lines 259-281): `transform(slot)`
when bound; the untransformed default when unbound and a default was
supplied (`default = none` models the `no_default` sentinel); a
`RuntimeError` (TrackingError) otherwise. -/
def get_proxy_slot {α : Type} (obj : Trackable) (s : TrState)
    (default : Option α) (transform : SlotPayload → α) : Except TrErr α :=
  match lookup_tracker obj s with
  | some v => .ok (transform v)
  | none =>
    match default with
    | some d => .ok d
    | none => .error .trackingError

/-- Source: `has_proxy_slot` (lines 175-177):
`bool(get_proxy_slot(obj, tracer, False, lambda _: True))`. -/
def has_proxy_slot (obj : Trackable) (s : TrState) : Bool :=
  match get_proxy_slot obj s (some false) (fun _ => true) with
  | .ok b => b
  | .error _ => false

/-- The result of `fetch_object_proxy`: the slot value if bound, else
the object itself. -/
inductive FetchedArg where
  | slotV (v : SlotPayload)
  | orig (v : RtVal)
  deriving DecidableEq, Repr

/-- Source: `fetch_object_proxy` (lines 506-507): `get_proxy_slot(t, tracer, t)`. -/
def fetch_object_proxy (obj : Trackable) (v : RtVal) (s : TrState) : FetchedArg :=
  match get_proxy_slot obj s (some (FetchedArg.orig v)) .slotV with
  | .ok r => r
  | .error _ => .orig v

/-- Source: `thunkify` (lines 347-352): allocate a fresh `Thunk` object with an
empty memo cell; returns its id. -/
def thunkify (c : ThunkComp) (s : TrState) : Nat × TrState :=
  (s.nextId,
   { s with
     thunks := (s.nextId, ⟨c, none⟩) :: s.thunks,
     nextId := s.nextId + 1 })

/-- Python `bool()` coercion of a scalar. -/
def ScalarVal.asBool : ScalarVal → Bool
  | .b v => v
  | .i n => n != 0
  | .f q => q != 0

/-- Python `int()` coercion of a scalar (floats truncate toward zero). -/
def ScalarVal.asInt : ScalarVal → Int
  | .i n => n
  | .b v => if v then 1 else 0
  | .f q => if q ≥ 0 then q.floor else -((-q).floor)

/-- Python `float()` coercion of a scalar. -/
def ScalarVal.asFloat : ScalarVal → Rat
  | .f q => q
  | .i n => (n : Rat)
  | .b v => if v then 1 else 0

/-- Source: `tracer.create_proxy('call_function', ...)` / `tracer.create_node`:
append a node to the graph; the returned proxy is its index. -/
def create_proxy (target : OpId) (args : List (PyTree MappedArg))
    (kwargs : List (String × PyTree MappedArg)) (name : String)
    (s : TrState) : Proxy × TrState :=
  (s.graph.length,
   { s with graph := s.graph ++ [⟨target, args, kwargs, name, none, false⟩] })

/-- Source: `snapshot_fake` (lines 283-290): a detached view of a fake tensor.
Detaching shares the data and metadata, so it is the identity in this
embedding (autograd state is not modelled). -/
def snapshot_fake (t : TensorData) : TensorData := t

mutual

/-- Source: `extract_val` (lines 297-328).  Fake tensors are snapshotted;
symbolic scalars, script objects, backward state and plain scalars pass
through; sequences and mappings recurse; a real non-sparse tensor is
replaced by a freshly fabricated fake tensor with the same metadata
but no data (the fresh allocation id is not modelled: snapshot object
identity is never consulted); sparse tensors give `None`. -/
def extract_val : PyTree RtVal → PyTree RtVal
  | .leaf (.tensor t) =>
    if t.isFake then .leaf (.tensor (snapshot_fake t))
    else if t.isSparse then .leaf .noneV
    else .leaf (.tensor { t with ty := .fakeTensor, isFake := true, data := [] })
  | .leaf v => .leaf v
  | .listT xs => .listT (extract_valL xs)
  | .dictT xs => .dictT (extract_valD xs)

/-- Source: `extract_val` over a sequence. -/
def extract_valL : List (PyTree RtVal) → List (PyTree RtVal)
  | [] => []
  | x :: xs => extract_val x :: extract_valL xs

/-- Source: `extract_val` over a mapping. -/
def extract_valD : List (String × PyTree RtVal) → List (String × PyTree RtVal)
  | [] => []
  | (k, x) :: xs => (k, extract_val x) :: extract_valD xs

end

/-- Source: `set_meta` (lines 337-345): store `extract_val val` as the node's
value snapshot.  (The best-effort redundant `tensor_meta` entry is not
modelled.) -/
def set_meta (p : Proxy) (val : PyTree RtVal) (s : TrState) : TrState :=
  match s.graph.get? p with
  | some nd => { s with graph := s.graph.set p { nd with meta := some (extract_val val) } }
  | none => s

/-- Update a thunk's memo cell after its first forcing. -/
def memoThunk (tid : Nat) (p : Proxy) (s : TrState) : TrState :=
  match s.thunks.lookup tid with
  | some te => { s with thunks := (tid, { te with memo := some p }) :: s.thunks }
  | none => s

mutual

/-- Source: `Thunk.force`: return the memoized proxy, or run the deferred
computation once and cache it.  `fuel` bounds the re-entrant forcing
done by `_compute_proxy` (which forces the slots of its symbolic
arguments); the Python original recurses on the call stack. -/
def forceThunk (fuel : Nat) (tid : Nat) (s : TrState) : Except TrErr (Proxy × TrState) :=
  match fuel with
  | 0 => .error .fuelExhausted
  | fuel + 1 =>
    match s.thunks.lookup tid with
    | none => .error .assertionError
    | some te =>
      match te.memo with
      | some p => .ok (p, s)
      | none =>
        match te.comp with
        | .retProxy p => .ok (p, memoThunk tid p s)
        | .mkMetaNode op args metaVal =>
          let pr := create_proxy op args [] op.packet s
          let s2 := set_meta pr.1 metaVal pr.2
          .ok (pr.1, memoThunk tid pr.1 s2)
        | .computeProxy func args out =>
          match forceSymArgs fuel args s with
          | .error e => .error e
          | .ok (nargs, s1) =>
            let pr := create_proxy func nargs [] func.packet s1
            let s3 := set_meta pr.1 (.leaf (.symV out)) pr.2
            .ok (pr.1, memoThunk tid pr.1 s3)

/-- Source: `_compute_proxy`'s argument mapping: each symbolic argument is
replaced by the forced proxy of its slot thunk
(`get_proxy_slot(a, self.tracer).force().node`); other values pass
through. -/
def forceSymArgs (fuel : Nat) (l : List RtVal) (s : TrState) :
    Except TrErr (List (PyTree MappedArg) × TrState) :=
  match l with
  | [] => .ok ([], s)
  | a :: rest =>
    match a with
    | .symV so =>
      match get_proxy_slot (.symK so) s none (fun v => v) with
      | .error e => .error e
      | .ok (.symP tid) =>
        match forceThunk fuel tid s with
        | .error e => .error e
        | .ok (p, s1) =>
          match forceSymArgs fuel rest s1 with
          | .error e => .error e
          | .ok (tl, s2) => .ok (.leaf (.prox p) :: tl, s2)
      | .ok _ => .error .assertionError
    | v =>
      match forceSymArgs fuel rest s with
      | .error e => .error e
      | .ok (tl, s2) => .ok (.leaf (.rtv v) :: tl, s2)

end

/-- Source: `fetch_sym_proxy` (lines 474-489): a symbolic scalar maps to its
node's constant if present, to a coerced plain literal if its
expression is a number, and otherwise to the forced proxy of its
(required) slot thunk. -/
def fetch_sym_proxy (fuel : Nat) (e : SymObj) (s : TrState) :
    Except TrErr (MappedArg × TrState) :=
  match e.nodeConstant with
  | some c => .ok (.lit c, s)
  | none =>
    if e.exprIsNumber then
      match e.kind with
      | .symBool => .ok (.lit (.b e.exprVal.asBool), s)
      | .symInt => .ok (.lit (.i e.exprVal.asInt), s)
      | .symFloat => .ok (.lit (.f e.exprVal.asFloat), s)
    else
      match get_proxy_slot (.symK e) s none (fun v => v) with
      | .error e1 => .error e1
      | .ok (.symP tid) =>
        match forceThunk fuel tid s with
        | .error e1 => .error e1
        | .ok (p, s1) => .ok (.prox p, s1)
      | .ok _ => .error .assertionError

/-- Source: `try_set_proxy_slot` (track_tensor, lines 355-363): only `SymInt`
entries get a lazily thunked proxy bound into the symnode tracker. -/
def try_set_proxy_slot (d : DimVal) (comp : SymObj → ThunkComp) (s : TrState) : TrState :=
  match d with
  | .lit _ => s
  | .symD so =>
    if so.kind = .symInt then
      let ts := thunkify (comp so) s
      set_proxy_slot (.symB so ts.1) ts.2
    else s

/-- Source: `track_tensor` (lines 354-387): thunk-bind every symbolic shape,
stride, numel and storage-offset entry (strides and offset only for
non-sparse tensors), then bind the tensor itself to
`_ProxyTensor(proxy, constant)`. -/
def track_tensor (t : TensorData) (proxy : Proxy) (constant : Option TensorData)
    (s : TrState) : TrState :=
  let s1 := t.shape.enum.foldl
    (fun st pr =>
      try_set_proxy_slot pr.2
        (fun so => .mkMetaNode aten_sym_size_int
          [.leaf (.prox proxy), .leaf (.lit (.i pr.1))] (.leaf (.symV so))) st) s
  let s2 :=
    if t.isSparse then s1
    else t.strideL.enum.foldl
      (fun st pr =>
        try_set_proxy_slot pr.2
          (fun so => .mkMetaNode aten_sym_stride_int
            [.leaf (.prox proxy), .leaf (.lit (.i pr.1))] (.leaf (.symV so))) st) s1
  let s3 := try_set_proxy_slot t.numelD
    (fun so => .mkMetaNode aten_sym_numel_default
      [.leaf (.prox proxy)] (.leaf (.symV so))) s2
  let s4 :=
    if t.isSparse then s3
    else try_set_proxy_slot t.storageOffset
      (fun so => .mkMetaNode aten_sym_storage_offset_default
        [.leaf (.prox proxy)] (.leaf (.symV so))) s3
  set_proxy_slot (.tensorB t ⟨proxy, constant⟩) s4

/-- The `_NestedProxys` structure walked by `track_tensor_tree`:
a single `fx.Proxy` or nested sequences/mappings of them. -/
inductive ProxyTree where
  | leafP (p : Proxy)
  | listP (xs : List ProxyTree)
  | dictP (xs : List (String × ProxyTree))

/-- Source: `proxy[idx]` in `wrap_with_proxy`: indexing an `fx.Proxy` records a
fresh `operator.getitem` node; indexing a real sequence selects the
element (out of range raises). -/
def proxyIndexNat (pt : ProxyTree) (idx : Nat) (s : TrState) :
    Except TrErr (ProxyTree × TrState) :=
  match pt with
  | .leafP p =>
    let pr := create_proxy operator_getitem
      [.leaf (.prox p), .leaf (.lit (.i idx))] [] operator_getitem.packet s
    .ok (.leafP pr.1, pr.2)
  | .listP xs =>
    match xs.get? idx with
    | some x => .ok (x, s)
    | none => .error .assertionError
  | .dictP _ => .error .assertionError

/-- Source: `proxy[key]` in the mapping branch of `wrap_with_proxy`. -/
def proxyIndexKey (pt : ProxyTree) (key : String) (s : TrState) :
    Except TrErr (ProxyTree × TrState) :=
  match pt with
  | .leafP p =>
    let pr := create_proxy operator_getitem
      [.leaf (.prox p), .leaf (.litS key)] [] operator_getitem.packet s
    .ok (.leafP pr.1, pr.2)
  | .listP _ => .error .assertionError
  | .dictP xs =>
    match xs.lookup key with
    | some x => .ok (x, s)
    | none => .error .assertionError

/-- Source: `get_constant` (lines 421-426): distribute the constant tree over a
sequence position (asserting it is a sequence when present). -/
def get_constant (c : Option (PyTree RtVal)) (idx : Nat) :
    Except TrErr (Option (PyTree RtVal)) :=
  match c with
  | none => .ok none
  | some (.listT cs) =>
    match cs.get? idx with
    | some ci => .ok (some ci)
    | none => .error .assertionError
  | some _ => .error .assertionError

mutual

/-- Source: `wrap_with_proxy` (track_tensor_tree, lines 401-455): walk the real
result in lockstep with the proxy structure, binding every
tensor/symbolic-scalar/script-object leaf into the Slot Registry and
attaching value snapshots; plain data passes through untouched. -/
def wrap_with_proxy (e : PyTree RtVal) (proxy : ProxyTree)
    (constant : Option (PyTree RtVal)) (s : TrState) : Except TrErr TrState :=
  match e with
  | .leaf (.tensor t) =>
    match proxy with
    | .leafP p =>
      match constant with
      | none => .ok (set_meta p (.leaf (.tensor t)) (track_tensor t p none s))
      | some (.leaf (.tensor c)) =>
        .ok (set_meta p (.leaf (.tensor t)) (track_tensor t p (some c) s))
      | some _ => .error .assertionError
    | _ => .error .assertionError
  | .leaf (.symV so) =>
    match proxy with
    | .leafP p =>
      let s1 := set_meta p (.leaf (.symV so)) s
      let ts := thunkify (.retProxy p) s1
      .ok (set_proxy_slot (.symB so ts.1) ts.2)
    | _ => .error .assertionError
  | .leaf (.scriptObj oid) =>
    match proxy with
    | .leafP p => .ok (set_meta p (.leaf (.scriptObj oid)) (set_proxy_slot (.objB oid p) s))
    | _ => .error .assertionError
  | .listT xs =>
    let s1 :=
      match proxy with
      | .leafP p => set_meta p (.listT xs) s
      | _ => s
    wrapListItems xs 0 proxy constant s1
  | .dictT xs =>
    match constant with
    | some _ => .error .assertionError
    | none =>
      let s1 :=
        match proxy with
        | .leafP p => set_meta p (.dictT xs) s
        | _ => s
      wrapDictItems xs proxy s1
  | .leaf (.backwardState oid) =>
    match proxy with
    | .leafP p =>
      .ok { set_meta p (.leaf (.backwardState oid)) s with
            attrProxy := (oid, p) :: (set_meta p (.leaf (.backwardState oid)) s).attrProxy }
    | _ => .error .assertionError
  | .leaf (.plain _) => .ok s
  | .leaf (.proxyV _) => .ok s
  | .leaf .noneV => .ok s

/-- The positional recursion of the sequence branch. -/
def wrapListItems (xs : List (PyTree RtVal)) (idx : Nat) (proxy : ProxyTree)
    (constant : Option (PyTree RtVal)) (s : TrState) : Except TrErr TrState :=
  match xs with
  | [] => .ok s
  | x :: rest =>
    match proxyIndexNat proxy idx s with
    | .error e1 => .error e1
    | .ok (pi1, s1) =>
      match get_constant constant idx with
      | .error e1 => .error e1
      | .ok ci =>
        match wrap_with_proxy x pi1 ci s1 with
        | .error e1 => .error e1
        | .ok s2 => wrapListItems rest (idx + 1) proxy constant s2

/-- The by-key recursion of the mapping branch (constants are always
absent there). -/
def wrapDictItems (xs : List (String × PyTree RtVal)) (proxy : ProxyTree)
    (s : TrState) : Except TrErr TrState :=
  match xs with
  | [] => .ok s
  | (k, x) :: rest =>
    match proxyIndexKey proxy k s with
    | .error e1 => .error e1
    | .ok (pi1, s1) =>
      match wrap_with_proxy x pi1 none s1 with
      | .error e1 => .error e1
      | .ok s2 => wrapDictItems rest proxy s2

end

/-- Source: `track_tensor_tree` (lines 392-459).  `_set_unbacked_bindings`
consults the external symbolic-shape solver through the ambient fake
mode and only annotates node metadata; it is not modelled. -/
def track_tensor_tree (inner_res : PyTree RtVal) (proxy_res : ProxyTree)
    (constant : Option (PyTree RtVal)) (s : TrState) : Except TrErr TrState :=
  wrap_with_proxy inner_res proxy_res constant s

/-- The configuration fields of `ProxyTorchDispatchMode` consulted by
`proxy_call` (underscores of the Python attribute names dropped). -/
structure ProxyMode where
  allowFakeConstant : Bool
  errorOnDataDependentOps : Bool
  decompLayers : Nat
  emulatePrecisionCasts : Bool

/-- Source: `HANDLED_TYPES` (line 509). -/
def HANDLED_TYPES : List PyTensorType := [.plainTensor, .parameter, .fakeTensor]

/-- Source: `can_handle_tensor` (proxy_call, lines 540-546): exact type in
`HANDLED_TYPES`, or an already slot-bound tensor, or (under
`_allow_fake_constant`) a `FakeTensor`. -/
def can_handle_tensor (mode : ProxyMode) (s : TrState) (t : TensorData) : Bool :=
  let r := HANDLED_TYPES.contains t.ty || has_proxy_slot (.tensorK t) s
  if mode.allowFakeConstant then r || (t.ty = .fakeTensor) else r

/-- Source: `pytree.tree_flatten((args, kwargs))`, leaves in left-to-right
order: positional trees first, then keyword trees in insertion order. -/
def flattenArgsKw (args : List (PyTree RtVal))
    (kwargs : List (String × PyTree RtVal)) : List RtVal :=
  (PyTree.listT args).flatten ++ (PyTree.dictT kwargs).flatten

/-- The `all(can_handle_tensor(x) ...)` gate of step 1. -/
def canHandleAllTensors (mode : ProxyMode) (s : TrState) (flat : List RtVal) : Bool :=
  flat.all fun v =>
    match v with
    | .tensor t => can_handle_tensor mode s t
    | _ => true

/-- The per-leaf `fetch_object_proxy` application of lines 576-583:
tensors and script objects are replaced by their slot value when bound. -/
def fetchArg (s : TrState) : RtVal → FetchedArg
  | .tensor t => fetch_object_proxy (.tensorK t) (.tensor t) s
  | .scriptObj oid => fetch_object_proxy (.objK oid) (.scriptObj oid) s
  | v => .orig v

/-- Source: `all_constant` (lines 588-599): no fetched `_ProxyTensor` lacks a
captured constant, and no original argument is a symbolic scalar
(constant-valued or not — see the TODO comment in the source). -/
def all_constant_check (fetched : List FetchedArg) (flat : List RtVal) : Bool :=
  (!(fetched.any fun fa =>
      match fa with
      | .slotV (.tensorP pt) => pt.constant.isNone
      | _ => false))
  && (!(flat.any fun v =>
      match v with
      | .symV _ => true
      | _ => false))

/-- Source: `any_constant` (lines 723-727). -/
def any_constant_check (fetched : List FetchedArg) : Bool :=
  fetched.any fun fa =>
    match fa with
    | .slotV (.tensorP pt) => pt.constant.isSome
    | _ => false

/-- Source: `pytree.tree_all_only(Tensor, lambda t: not is_fake(t), (args, kwargs))`
(lines 616-618). -/
def allTensorArgsReal (args : List (PyTree RtVal))
    (kwargs : List (String × PyTree RtVal)) : Bool :=
  (flattenArgsKw args kwargs).all fun v =>
    match v with
    | .tensor t => !t.isFake
    | _ => true

/-- One leaf of `const_flat_args_kwargs` (lines 604-607 and 752-755):
`t.constant if isinstance(t, _ProxyTensor) else t`, computed against
the tracker state `s0` the arguments were fetched with. -/
def constLeaf (s0 : TrState) (v : RtVal) : RtVal :=
  match fetchArg s0 v with
  | .slotV (.tensorP pt) =>
    match pt.constant with
    | some c => .tensor c
    | none => .noneV
  | .slotV (.objP p) => .proxyV p
  | .slotV (.symP _) => v
  | .orig w => w

/-- Structure-preserving leaf map over positional and keyword trees
(`tree_unflatten(map f flat, spec)` in the source). -/
def mapArgsKwLeaves (f : RtVal → RtVal) (args : List (PyTree RtVal))
    (kwargs : List (String × PyTree RtVal)) :
    List (PyTree RtVal) × List (String × PyTree RtVal) :=
  (args.map (PyTree.mapLeaves f), kwargs.map fun kv => (kv.1, kv.2.mapLeaves f))

/-- The composed argument-to-proxy mapping of lines 626-636: fetched
`_ProxyTensor`s yield their proxy, fetched script objects their proxy,
symbolic scalars go through `fetch_sym_proxy` (which may force thunks,
mutating the graph), everything else passes through unmapped. -/
def proxyMapLeaf (fuel : Nat) (s0 : TrState) (v : RtVal) (st : TrState) :
    Except TrErr (MappedArg × TrState) :=
  match fetchArg s0 v with
  | .slotV (.tensorP pt) => .ok (.prox pt.proxy, st)
  | .slotV (.objP p) => .ok (.prox p, st)
  | .slotV (.symP _) => .ok (.rtv v, st)
  | .orig w =>
    match w with
    | .symV so => fetch_sym_proxy fuel so st
    | _ => .ok (.rtv w, st)

mutual

/-- Stateful leaf map over one argument tree (the flatten-map-unflatten
of lines 626-637, which visits leaves in the same left-to-right order). -/
def mapTreeM (fuel : Nat) (s0 : TrState) (t : PyTree RtVal) (st : TrState) :
    Except TrErr (PyTree MappedArg × TrState) :=
  match t with
  | .leaf v =>
    match proxyMapLeaf fuel s0 v st with
    | .error e => .error e
    | .ok (m, st1) => .ok (.leaf m, st1)
  | .listT xs =>
    match mapTreeListM fuel s0 xs st with
    | .error e => .error e
    | .ok (ys, st1) => .ok (.listT ys, st1)
  | .dictT xs =>
    match mapTreeDictM fuel s0 xs st with
    | .error e => .error e
    | .ok (ys, st1) => .ok (.dictT ys, st1)

/-- Stateful leaf map over a list of argument trees. -/
def mapTreeListM (fuel : Nat) (s0 : TrState) (ts : List (PyTree RtVal)) (st : TrState) :
    Except TrErr (List (PyTree MappedArg) × TrState) :=
  match ts with
  | [] => .ok ([], st)
  | t :: rest =>
    match mapTreeM fuel s0 t st with
    | .error e => .error e
    | .ok (m, st1) =>
      match mapTreeListM fuel s0 rest st1 with
      | .error e => .error e
      | .ok (ms, st2) => .ok (m :: ms, st2)

/-- Stateful leaf map over keyword argument trees. -/
def mapTreeDictM (fuel : Nat) (s0 : TrState) (ts : List (String × PyTree RtVal)) (st : TrState) :
    Except TrErr (List (String × PyTree MappedArg) × TrState) :=
  match ts with
  | [] => .ok ([], st)
  | (k, t) :: rest =>
    match mapTreeM fuel s0 t st with
    | .error e => .error e
    | .ok (m, st1) =>
      match mapTreeDictM fuel s0 rest st1 with
      | .error e => .error e
      | .ok (ms, st2) => .ok ((k, m) :: ms, st2)

end

/-- Source: `_maybe_record_pointwise_barrier` (lines 512-527): under precision
emulation outside decompositions, mark the most recent node when a
pointwise operator produced a half-precision tensor.  Reading the last
node of an empty graph would raise. -/
def maybe_record_pointwise_barrier (func : OpInfo) (mode : ProxyMode)
    (s : TrState) : Except TrErr TrState :=
  if mode.decompLayers ≠ 0 || !mode.emulatePrecisionCasts then .ok s
  else if !(func.tags.contains OpTag.pointwise) then .ok s
  else
    match s.graph.getLast? with
    | none => .error .assertionError
    | some last =>
      match last.meta with
      | some (.leaf (.tensor td)) =>
        if td.dtype = "bfloat16" || td.dtype = "float16" then
          .ok { s with
                graph := s.graph.set (s.graph.length - 1)
                  { last with lowPrecisionPointwiseBarrier := true } }
        else .ok s
      | _ => .ok s

/-- Source: `tensor_numel_in_limit` (lines 731-732). -/
def tensor_numel_in_limit (t : TensorData) : Bool :=
  t.numelD.hint ≤ CONSTANT_NUMEL_LIMIT

/-- Source: `Tensor.clone()`: same metadata and element values, fresh object
identity. -/
def cloneTensor (freshId : Nat) (t : TensorData) : TensorData :=
  { t with tid := freshId }

/-- The in-place bookkeeping of lines 683-698: when the operator name
marks it as in-place (trailing underscore, no leading underscore), set
the `.proxy` attribute of the first positional tensor argument — or of
every element when that argument is a sequence, in which case fresh
`getitem` proxies `proxy_out[0][i]` are recorded per element. -/
def inplaceListAttr (elems : List (PyTree RtVal)) (i : Nat) (proxy_out : Proxy)
    (s : TrState) : Except TrErr TrState :=
  match elems with
  | [] => .ok s
  | e :: rest =>
    let g1 := create_proxy operator_getitem
      [.leaf (.prox proxy_out), .leaf (.lit (.i 0))] [] operator_getitem.packet s
    let g2 := create_proxy operator_getitem
      [.leaf (.prox g1.1), .leaf (.lit (.i i))] [] operator_getitem.packet g1.2
    match e with
    | .leaf (.tensor t) =>
      inplaceListAttr rest (i + 1) proxy_out
        { g2.2 with attrProxy := (t.tid, g2.1) :: g2.2.attrProxy }
    | _ => .error .assertionError

/-- Whether an overload-packet name marks the operator as in-place:
`name[-1] == "_" and name[0] != "_"` (lines 686-689), stated on the
character list (operator names are never empty). -/
def isInplaceName (name : String) : Bool :=
  (name.data.getLast? == some '_') && !(name.data.head? == some '_')

/-- Dispatch of the in-place bookkeeping on the shape of `args[0]`
(lines 686-698); a missing or non-tensor first argument raises. -/
def inplaceAttr (func2 : OpInfo) (args : List (PyTree RtVal)) (proxy_out : Proxy)
    (s : TrState) : Except TrErr TrState :=
  if isInplaceName func2.oid.packet then
    match args.head? with
    | none => .error .assertionError
    | some (.listT elems) => inplaceListAttr elems 0 proxy_out s
    | some (.leaf (.tensor t)) =>
      .ok { s with attrProxy := (t.tid, proxy_out) :: s.attrProxy }
    | some _ => .error .assertionError
  else .ok s

/-- The opaque kernel executor: given an operator identifier and the
real arguments, produce the real result. -/
abbrev KernelFn := OpId → List (PyTree RtVal) → List (String × PyTree RtVal) → PyTree RtVal

/-- An expansion traced under the recording layer (an entry of the
decomposition table, or `func.decompose`): it may append to the graph
and trackers, so it transforms the state. -/
abbrev DecompFn := List (PyTree RtVal) → List (String × PyTree RtVal) → TrState → PyTree RtVal × TrState

/-- Constant propagation for the new node (lines 723-761): for the
ownership-taking copy primitive with a small output, a clone of the
original pre-copy argument; otherwise, when the operator is not
seeded-nondeterministic, the arguments were fully constant with at
least one captured constant, and every resulting tensor is within the
element-count bound, the operator recomputed on the captured
constants; else no constant.  `s0` is the state the arguments were
fetched with.  (A `Proxy` first argument to the copy primitive passes
the source's isinstance assert but its clone then fails the constant
assert of the output walk; both are one assertion failure here.) -/
def proxy_call_constant (func2 : OpInfo) (args : List (PyTree RtVal))
    (kwargs : List (String × PyTree RtVal)) (out : PyTree RtVal)
    (allc anyc : Bool) (s0 : TrState) (kernel : KernelFn) (s : TrState) :
    Except TrErr (Option (PyTree RtVal) × TrState) :=
  let elifBranch : Except TrErr (Option (PyTree RtVal) × TrState) :=
    if !(func2.tags.contains OpTag.nondeterministicSeeded)
        && allc && anyc && out.allTensors tensor_numel_in_limit then
      let ca := mapArgsKwLeaves (constLeaf s0) args kwargs
      .ok (some (kernel func2.oid ca.1 ca.2), s)
    else .ok (none, s)
  if func2.oid = aten_lift_fresh_copy then
    match out with
    | .leaf (.tensor u) =>
      if u.numelD.hint ≤ CONSTANT_NUMEL_LIMIT then
        match args.head? with
        | some (.leaf (.tensor t0)) =>
          .ok (some (.leaf (.tensor (cloneTensor s.nextId t0))),
               { s with nextId := s.nextId + 1 })
        | _ => .error .assertionError
      else elifBranch
    | _ => .error .assertionError
  else elifBranch

/-- The outcome of `proxy_call`: the `NotImplemented` sentinel of the
unrecognized-input bail-out, or a returned value. -/
inductive PCResult where
  | notImplemented
  | res (v : PyTree RtVal)

/-- Source: `proxy_call` (lines 530-765), the operation recording algorithm.
External collaborators are parameters: `decompTable` models membership
of `CURRENT_DECOMPOSITION_TABLE` (`maybe_handle_decomp`, lines
1822-1835), `defaultDecompose` models `func.decompose`, `kernel` the
real operator execution.  `fuel` bounds re-entrant thunk forcing. -/
def proxy_call (mode : ProxyMode) (func : OpInfo) (pre_dispatch : Bool)
    (decompTable : OpId → Option DecompFn) (defaultDecompose : OpId → Option DecompFn)
    (kernel : KernelFn) (fuel : Nat)
    (args : List (PyTree RtVal)) (kwargs : List (String × PyTree RtVal))
    (s : TrState) : Except TrErr (PCResult × TrState) :=
  let flat := flattenArgsKw args kwargs
  if !canHandleAllTensors mode s flat then .ok (.notImplemented, s)
  else
    match decompTable func.oid with
    | some f =>
      let rs := f args kwargs s
      match maybe_record_pointwise_barrier func mode rs.2 with
      | .error e => .error e
      | .ok s2 => .ok (.res rs.1, s2)
    | none =>
      let tryDefaultDecomp :=
        if !pre_dispatch
            && func.oid ≠ aten_size_default
            && func.oid ≠ aten_stride_default
            && func.oid ≠ aten_storage_offset_default then
          defaultDecompose func.oid
        else none
      match tryDefaultDecomp with
      | some f =>
        let rs := f args kwargs s
        .ok (.res rs.1, rs.2)
      | none =>
        let fetched := flat.map (fetchArg s)
        let allc := all_constant_check fetched flat
        let ddGuard : Option (Except TrErr (PCResult × TrState)) :=
          if func.tags.contains OpTag.dataDependentOutput then
            if allc then
              let ca := mapArgsKwLeaves (constLeaf s) args kwargs
              some (.ok (.res (kernel func.oid ca.1 ca.2), s))
            else if mode.errorOnDataDependentOps && allTensorArgsReal args kwargs then
              some (.error .dataDependentError)
            else none
          else none
        match ddGuard with
        | some r => r
        | none =>
          match mapTreeListM fuel s args s with
          | .error e => .error e
          | .ok (pargs, s1) =>
            match mapTreeDictM fuel s kwargs s1 with
            | .error e => .error e
            | .ok (pkwargs, s1') =>
              let func2 :=
                if func.oid = aten_lift_fresh then
                  { func with oid := aten_lift_fresh_copy }
                else func
              let pr := create_proxy func2.oid pargs pkwargs func2.oid.packet s1'
              match inplaceAttr func2 args pr.1 pr.2 with
              | .error e => .error e
              | .ok s3 =>
                let out := kernel func2.oid args kwargs
                let anyc := any_constant_check fetched
                match proxy_call_constant func2 args kwargs out allc anyc s kernel s3 with
                | .error e => .error e
                | .ok (constant, s4) =>
                  match track_tensor_tree out (.leafP pr.1) constant s4 with
                  | .error e => .error e
                  | .ok s5 =>
                    match maybe_record_pointwise_barrier func2 mode s5 with
                    | .error e => .error e
                    | .ok s6 => .ok (.res out, s6)

/-- An argument or result of a symbolic-scalar dispatch: a `py_sym`
wrapper or a plain Python scalar.  Booleans are kept separate because
Python `bool` is a subclass of `int` for `isinstance` checks. -/
inductive SymDispatchArg where
  | symA (s : SymObj)
  | intA (n : Int)
  | boolA (v : Bool)
  | floatA (q : Rat)
  deriving DecidableEq, Repr

/-- Source: `isinstance(x, int)` on a dispatch argument (`True` qualifies). -/
def SymDispatchArg.isPyInt : SymDispatchArg → Bool
  | .intA _ => true
  | .boolA _ => true
  | _ => false

/-- The integer value used by the `== 1` comparison when `isPyInt`. -/
def SymDispatchArg.pyIntVal : SymDispatchArg → Int
  | .intA n => n
  | .boolA v => if v then 1 else 0
  | _ => 0

/-- Dispatch arguments as the runtime values captured by the deferred
`_compute_proxy`. -/
def symDispatchArgToRt : SymDispatchArg → RtVal
  | .symA so => .symV so
  | .intA n => .plain (.i n)
  | .boolA v => .plain (.b v)
  | .floatA q => .plain (.f q)

/-- Source: `ProxySymDispatchMode.__sym_dispatch__` (lines 1135-1167): with
tracing disabled, call through; peephole-eliminate multiplication by a
plain integer one; otherwise run the real scalar operation and, when
the result is symbolic, bind a deferred `_compute_proxy` thunk for it
(first write wins in the symnode tracker).  `symKernel` is the real
scalar kernel `func(*args)`. -/
def sym_dispatch (enableTracing : Bool) (func : OpId)
    (args : List SymDispatchArg) (kwargs : List (String × SymDispatchArg))
    (symKernel : OpId → List SymDispatchArg → SymDispatchArg)
    (s : TrState) : Except TrErr (SymDispatchArg × TrState) :=
  if !enableTracing then .ok (symKernel func args, s)
  else
    let peep : Option (Except TrErr (SymDispatchArg × TrState)) :=
      if func = operator_mul then
        match args with
        | a0 :: a1 :: _ =>
          if a1.isPyInt && a1.pyIntVal == 1 then some (.ok (a0, s))
          else if a0.isPyInt && a0.pyIntVal == 1 then some (.ok (a1, s))
          else none
        | _ => some (.error .assertionError)
      else none
    match peep with
    | some r => r
    | none =>
      if !kwargs.isEmpty then .error .assertionError
      else
        let out := symKernel func args
        match out with
        | .symA so =>
          let ts := thunkify (.computeProxy func (args.map symDispatchArgToRt) so) s
          .ok (out, set_proxy_slot (.symB so ts.1) ts.2)
        | _ => .ok (out, s)

/-- Whether a runtime value is a symbolic-scalar wrapper. -/
def RtVal.isSymScalar : RtVal → Bool
  | .symV _ => true
  | _ => false

section Theorems

/-- C3: for tensor values and opaque script-object handles, binding the
same key twice under the same tracer makes a subsequent lookup return
the value installed by the second call — tensor and object slots are
last-write-wins. -/
theorem tensor_and_object_slots_last_write_wins
    (t : TensorData) (pt1 pt2 : _ProxyTensor) (oid : Nat) (p1 p2 : Proxy)
    (s : TrState) :
    get_proxy_slot (.tensorK t)
        (set_proxy_slot (.tensorB t pt2) (set_proxy_slot (.tensorB t pt1) s))
        none (fun v => v) = .ok (.tensorP pt2)
    ∧ get_proxy_slot (.objK oid)
        (set_proxy_slot (.objB oid p2) (set_proxy_slot (.objB oid p1) s))
        none (fun v => v) = .ok (.objP p2) := by
  constructor <;>
    simp [get_proxy_slot, set_proxy_slot, lookup_tracker, List.lookup]

/-- C6: `get_proxy_slot` returns `transform(slot)` when the value is
bound in the tracker corresponding to its kind, the untransformed
default when unbound and a default was supplied, and raises the
tracking error when unbound with no default. -/
theorem get_proxy_slot_spec {α : Type} (obj : Trackable) (s : TrState)
    (d : α) (transform : SlotPayload → α) :
    (∀ v, lookup_tracker obj s = some v →
        get_proxy_slot obj s (some d) transform = .ok (transform v)
        ∧ get_proxy_slot obj s none transform = .ok (transform v))
    ∧ (lookup_tracker obj s = none →
        get_proxy_slot obj s (some d) transform = .ok d
        ∧ get_proxy_slot obj s none transform = .error .trackingError) := by
  constructor
  · intro v hv
    constructor <;> simp [get_proxy_slot, hv]
  · intro hv
    constructor <;> simp [get_proxy_slot, hv]

/-- Concrete instantiation of the C6 theorem: a bound tensor slot is
transformed, an unbound one falls back to the default or errors. -/
theorem get_proxy_slot_spec_witness :
    (get_proxy_slot (.tensorK ⟨1, .plainTensor, false, false, "float32", .lit 1, [], [], .lit 0, []⟩)
        ⟨[(1, ⟨5, none⟩)], [], [], [], [], [], 0⟩ (some 99) (fun _ => 7) = .ok 7)
    ∧ (get_proxy_slot (.tensorK ⟨2, .plainTensor, false, false, "float32", .lit 1, [], [], .lit 0, []⟩)
        ⟨[(1, ⟨5, none⟩)], [], [], [], [], [], 0⟩ (some 99) (fun _ => 7) = .ok 99)
    ∧ (get_proxy_slot (.tensorK ⟨2, .plainTensor, false, false, "float32", .lit 1, [], [], .lit 0, []⟩)
        ⟨[(1, ⟨5, none⟩)], [], [], [], [], [], 0⟩ none (fun _ => 7) = .error .trackingError) := by
  refine ⟨?_, ?_, ?_⟩
  · exact ((get_proxy_slot_spec _ _ 99 _).1 (.tensorP ⟨5, none⟩) (by decide)).1
  · exact ((get_proxy_slot_spec _ _ 99 _).2 (by decide)).1
  · exact ((get_proxy_slot_spec _ _ 99 (fun _ => 7)).2 (by decide)).2

/-- C2: binding a proxy thunk twice for the same underlying
symbolic-variable identity (the same SymNode id, possibly through
distinct wrapper objects) leaves the first binding in place: the second
`set_proxy_slot` is a no-op and both subsequent lookups return the
thunk installed by the first bind. -/
theorem symnode_slots_first_write_wins (a b : SymObj) (t1 t2 : Nat)
    (s : TrState) (hsame : a.nodeId = b.nodeId)
    (hfree : s.symnode_tracker.lookup a.nodeId = none) :
    set_proxy_slot (.symB b t2) (set_proxy_slot (.symB a t1) s)
      = set_proxy_slot (.symB a t1) s
    ∧ get_proxy_slot (.symK a) (set_proxy_slot (.symB b t2) (set_proxy_slot (.symB a t1) s))
        none (fun v => v) = .ok (.symP t1)
    ∧ get_proxy_slot (.symK b) (set_proxy_slot (.symB b t2) (set_proxy_slot (.symB a t1) s))
        none (fun v => v) = .ok (.symP t1) := by
  have h1 : set_proxy_slot (.symB a t1) s
      = { s with symnode_tracker := (a.nodeId, t1) :: s.symnode_tracker } := by
    simp [set_proxy_slot, hfree]
  have h2 : set_proxy_slot (.symB b t2) (set_proxy_slot (.symB a t1) s)
      = set_proxy_slot (.symB a t1) s := by
    rw [h1]
    simp only [set_proxy_slot]
    rw [← hsame]
    simp [List.lookup]
  refine ⟨h2, ?_, ?_⟩
  · rw [h2, h1]
    simp [get_proxy_slot, lookup_tracker, List.lookup]
  · rw [h2, h1]
    simp [get_proxy_slot, lookup_tracker, ← hsame, List.lookup]

/-- Concrete instantiation of the C2 theorem: two fresh wrappers of the
same SymNode, bound to thunks 100 then 200; both lookups yield 100. -/
theorem symnode_slots_first_write_wins_witness :
    set_proxy_slot (.symB ⟨11, 3, .symInt, none, false, .i 7⟩ 200)
        (set_proxy_slot (.symB ⟨10, 3, .symInt, none, false, .i 7⟩ 100)
          ⟨[], [], [], [], [], [], 0⟩)
      = set_proxy_slot (.symB ⟨10, 3, .symInt, none, false, .i 7⟩ 100)
          ⟨[], [], [], [], [], [], 0⟩
    ∧ get_proxy_slot (.symK ⟨10, 3, .symInt, none, false, .i 7⟩)
        (set_proxy_slot (.symB ⟨11, 3, .symInt, none, false, .i 7⟩ 200)
          (set_proxy_slot (.symB ⟨10, 3, .symInt, none, false, .i 7⟩ 100)
            ⟨[], [], [], [], [], [], 0⟩))
        none (fun v => v) = .ok (.symP 100)
    ∧ get_proxy_slot (.symK ⟨11, 3, .symInt, none, false, .i 7⟩)
        (set_proxy_slot (.symB ⟨11, 3, .symInt, none, false, .i 7⟩ 200)
          (set_proxy_slot (.symB ⟨10, 3, .symInt, none, false, .i 7⟩ 100)
            ⟨[], [], [], [], [], [], 0⟩))
        none (fun v => v) = .ok (.symP 100) :=
  symnode_slots_first_write_wins ⟨10, 3, .symInt, none, false, .i 7⟩
    ⟨11, 3, .symInt, none, false, .i 7⟩ 100 200 ⟨[], [], [], [], [], [], 0⟩
    rfl rfl

/-- C9: when any tensor among the flattened positional/keyword
arguments is neither of a directly handled kind nor already slot-bound
(nor a fake tensor accepted by `_allow_fake_constant`), `proxy_call`
returns the `NotImplemented` sentinel: no exception is raised and the
state — in particular the graph — is left untouched. -/
theorem unrecognized_input_returns_not_implemented
    (mode : ProxyMode) (func : OpInfo) (pre_dispatch : Bool)
    (decompTable defaultDecompose : OpId → Option DecompFn) (kernel : KernelFn)
    (fuel : Nat) (args : List (PyTree RtVal)) (kwargs : List (String × PyTree RtVal))
    (s : TrState)
    (h : (flattenArgsKw args kwargs).any
        (fun v => match v with
          | .tensor t => !can_handle_tensor mode s t
          | _ => false) = true) :
    proxy_call mode func pre_dispatch decompTable defaultDecompose kernel fuel args kwargs s
      = .ok (.notImplemented, s) := by
  have hall : canHandleAllTensors mode s (flattenArgsKw args kwargs) = false := by
    rw [List.any_eq_true] at h
    obtain ⟨v, hv, hvp⟩ := h
    unfold canHandleAllTensors
    rw [List.all_eq_false]
    refine ⟨v, hv, ?_⟩
    cases v <;> simp_all
  unfold proxy_call
  simp [hall]

/-- Concrete instantiation of the C9 theorem: a tensor of an
unrecognized subclass, unbound in an empty tracker, makes `proxy_call`
return the sentinel with the state unchanged. -/
theorem unrecognized_input_returns_not_implemented_witness :
    proxy_call ⟨false, true, 0, false⟩ ⟨⟨"add", "Tensor"⟩, []⟩ false
      (fun _ => none) (fun _ => none) (fun _ _ _ => .leaf .noneV) 5
      [.leaf (.tensor ⟨1, .otherSubclass "MyTensor", false, false, "float32", .lit 1, [], [], .lit 0, []⟩)]
      [] ⟨[], [], [], [], [], [], 0⟩
      = .ok (.notImplemented, ⟨[], [], [], [], [], [], 0⟩) :=
  unrecognized_input_returns_not_implemented _ _ _ _ _ _ _ _ _ _ (by decide)

/-- C10: under `ProxySymDispatchMode` with tracing enabled,
multiplication with the plain integer literal one as either operand
returns the other operand unchanged — state untouched, so no graph
node is created and no proxy slot is bound. -/
theorem sym_dispatch_mul_by_one (a0 a1 : SymDispatchArg)
    (rest : List SymDispatchArg) (kwargs : List (String × SymDispatchArg))
    (symKernel : OpId → List SymDispatchArg → SymDispatchArg) (s : TrState) :
    (a1 = .intA 1 →
      sym_dispatch true operator_mul (a0 :: a1 :: rest) kwargs symKernel s = .ok (a0, s))
    ∧ (a0 = .intA 1 → (a1.isPyInt && a1.pyIntVal == 1) = false →
      sym_dispatch true operator_mul (a0 :: a1 :: rest) kwargs symKernel s = .ok (a1, s)) := by
  constructor
  · rintro rfl
    simp [sym_dispatch, SymDispatchArg.isPyInt, SymDispatchArg.pyIntVal]
  · rintro rfl h
    simp only [sym_dispatch]
    rw [h]
    simp [SymDispatchArg.isPyInt, SymDispatchArg.pyIntVal]

/-- Concrete instantiation of the C10 theorem: a symbolic operand times
the literal one, on both sides, yields the symbolic operand with the
state unchanged. -/
theorem sym_dispatch_mul_by_one_witness :
    sym_dispatch true operator_mul [.symA ⟨0, 1, .symInt, none, false, .i 5⟩, .intA 1] []
      (fun _ _ => .intA 0) ⟨[], [], [], [], [], [], 0⟩
      = .ok (.symA ⟨0, 1, .symInt, none, false, .i 5⟩, ⟨[], [], [], [], [], [], 0⟩)
    ∧ sym_dispatch true operator_mul [.intA 1, .symA ⟨0, 1, .symInt, none, false, .i 5⟩] []
      (fun _ _ => .intA 0) ⟨[], [], [], [], [], [], 0⟩
      = .ok (.symA ⟨0, 1, .symInt, none, false, .i 5⟩, ⟨[], [], [], [], [], [], 0⟩) :=
  ⟨(sym_dispatch_mul_by_one _ _ [] [] _ _).1 rfl,
   (sym_dispatch_mul_by_one _ _ [] [] _ _).2 rfl rfl⟩

/-- Whether a symbolic scalar is statically a literal constant in the
sense of the argument-mapping step (`fetch_sym_proxy`): its node
carries a constant or its expression is a number. -/
def symIsStaticLiteral (so : SymObj) : Bool :=
  so.nodeConstant.isSome || so.exprIsNumber

/-- The fully-constant judgment as the spec words it: every tracked
tensor argument carries a captured constant and no argument is a
NON-LITERAL symbolic scalar.  Compare with `all_constant_check`, the
judgment the code actually makes. -/
def all_constant_claimed (fetched : List FetchedArg) (flat : List RtVal) : Bool :=
  (!(fetched.any fun fa =>
      match fa with
      | .slotV (.tensorP pt) => pt.constant.isNone
      | _ => false))
  && (!(flat.any fun v =>
      match v with
      | .symV so => !symIsStaticLiteral so
      | _ => false))

/-- A SymInt wrapper that is statically the literal 3. -/
def litSymC7 : SymObj := ⟨10, 20, .symInt, some (.i 3), true, .i 3⟩

/-- A tracker state binding tensor 1 with a captured constant, and the
argument list of a call passing that tensor plus the literal SymInt. -/
def stateC7 : TrState :=
  ⟨[(1, ⟨0, some ⟨7, .plainTensor, false, false, "float32", .lit 1, [], [], .lit 0, [.i 4]⟩⟩)],
   [], [], [], [], [], 0⟩

def flatC7 : List RtVal :=
  flattenArgsKw
    [.leaf (.tensor ⟨1, .plainTensor, false, false, "float32", .lit 1, [], [], .lit 0, [.i 4]⟩),
     .leaf (.symV litSymC7)] []

/-- Counterexample to C7 as stated: with every tracked tensor argument
carrying a captured constant and the only symbolic-scalar argument
statically the literal 3, the claim judges the arguments fully
constant, but the code's `all_constant` is false — any symbolic scalar
argument, literal or not, defeats the judgment. -/
theorem all_constant_literal_sym_counterexample :
    all_constant_claimed (flatC7.map (fetchArg stateC7)) flatC7 = true
    ∧ all_constant_check (flatC7.map (fetchArg stateC7)) flatC7 = false := by
  constructor <;> decide

/-- Auxiliary: a negated `any` is an `all` of negations. -/
theorem not_any_eq_all_not {α : Type} (l : List α) (p : α → Bool) :
    (!(l.any p)) = l.all fun x => !p x := by
  induction l with
  | nil => rfl
  | cons a l ih => simp [List.any_cons, List.all_cons, ih]

/-- C7 amended: the code judges the arguments fully constant iff every
tracked tensor argument carries a captured constant value and no
argument is a symbolic scalar at all — a statically-literal symbolic
scalar also defeats the judgment. -/
theorem all_constant_characterization (fetched : List FetchedArg) (flat : List RtVal) :
    all_constant_check fetched flat
      = ((fetched.all fun fa =>
            match fa with
            | .slotV (.tensorP pt) => pt.constant.isSome
            | _ => true)
         && (flat.all fun v => !v.isSymScalar)) := by
  unfold all_constant_check
  rw [not_any_eq_all_not, not_any_eq_all_not]
  have e1 : (fun fa : FetchedArg =>
        !(match fa with
          | .slotV (.tensorP pt) => pt.constant.isNone
          | _ => false))
      = (fun fa : FetchedArg =>
          match fa with
          | .slotV (.tensorP pt) => pt.constant.isSome
          | _ => true) := by
    funext fa
    rcases fa with v | v
    · rcases v with pt | p | tid
      · simp [Option.bnot_isNone]
      · rfl
      · rfl
    · rfl
  have e2 : (fun v : RtVal =>
        !(match v with
          | .symV _ => true
          | _ => false))
      = (fun v : RtVal => !v.isSymScalar) := by
    funext v
    cases v <;> rfl
  rw [e1, e2]

/-- Auxiliary: `set_meta` only rewrites node metadata — the trackers
and the allocation counter are untouched. -/
theorem set_meta_tensor_tracker (p : Proxy) (v : PyTree RtVal) (s : TrState) :
    (set_meta p v s).tensor_tracker = s.tensor_tracker
    ∧ (set_meta p v s).nextId = s.nextId := by
  unfold set_meta
  cases s.graph.get? p <;> simp

/-- Auxiliary: `set_meta` preserves every node's target and the graph
length. -/
theorem set_meta_graph_targets (p : Proxy) (v : PyTree RtVal) (s : TrState) (j : Nat) :
    ((set_meta p v s).graph.get? j).map Node.target = (s.graph.get? j).map Node.target
    ∧ (set_meta p v s).graph.length = s.graph.length := by
  unfold set_meta
  cases hg : s.graph.get? p with
  | none => simp
  | some nd =>
    constructor
    · by_cases hj : p = j
      · subst hj
        rw [List.get?_set_eq]
        cases hg2 : s.graph.get? p <;> simp_all
      · rw [List.get?_set_ne _ _ hj]
    · simp

/-- Auxiliary: `try_set_proxy_slot` only allocates a thunk and touches
the symnode tracker. -/
theorem try_set_proxy_slot_state (d : DimVal) (c : SymObj → ThunkComp) (s : TrState) :
    (try_set_proxy_slot d c s).tensor_tracker = s.tensor_tracker
    ∧ (try_set_proxy_slot d c s).graph = s.graph := by
  cases d with
  | lit n => exact ⟨rfl, rfl⟩
  | symD so =>
    simp only [try_set_proxy_slot]
    by_cases hk : so.kind = .symInt
    · rw [if_pos hk]
      show (set_proxy_slot _ _).tensor_tracker = _ ∧ (set_proxy_slot _ _).graph = _
      simp only [set_proxy_slot, thunkify]
      split <;> exact ⟨rfl, rfl⟩
    · rw [if_neg hk]
      exact ⟨rfl, rfl⟩

/-- Auxiliary: a fold of `try_set_proxy_slot` steps over enumerated
dimension entries preserves the tensor tracker and the graph. -/
theorem foldl_try_set_state (l : List (Nat × DimVal))
    (g : Nat × DimVal → SymObj → ThunkComp) (s : TrState) :
    ((l.foldl (fun st pr => try_set_proxy_slot pr.2 (g pr) st) s).tensor_tracker
      = s.tensor_tracker)
    ∧ ((l.foldl (fun st pr => try_set_proxy_slot pr.2 (g pr) st) s).graph = s.graph) := by
  induction l generalizing s with
  | nil => exact ⟨rfl, rfl⟩
  | cons a l ih =>
    rw [List.foldl_cons]
    constructor
    · rw [(ih _).1, (try_set_proxy_slot_state _ _ _).1]
    · rw [(ih _).2, (try_set_proxy_slot_state _ _ _).2]

/-- Auxiliary: `track_tensor` prepends exactly one binding for the
tracked tensor to the tensor tracker and leaves the graph unchanged
(its symbolic-dimension thunks are allocated, not forced). -/
theorem track_tensor_state (t : TensorData) (p : Proxy)
    (c : Option TensorData) (s : TrState) :
    (track_tensor t p c s).tensor_tracker = (t.tid, ⟨p, c⟩) :: s.tensor_tracker
    ∧ (track_tensor t p c s).graph = s.graph := by
  unfold track_tensor
  simp only [set_proxy_slot]
  by_cases hsp : t.isSparse <;>
    simp only [hsp, Bool.false_eq_true, if_true, if_false, List.cons.injEq, true_and] <;>
    constructor <;>
    simp only [(try_set_proxy_slot_state _ _ _).1, (try_set_proxy_slot_state _ _ _).2,
      (foldl_try_set_state _ _ _).1, (foldl_try_set_state _ _ _).2]

/-- Auxiliary: the full run of `proxy_call` for an in-place operator
applied to one tracked, constant-free tensor argument: the call
records one new node, sets the `.proxy` attribute, runs the kernel and
re-tracks the result. -/
theorem inplace_run_eq
    (mode : ProxyMode) (func : OpInfo) (pre_dispatch : Bool)
    (decompTable defaultDecompose : OpId → Option DecompFn) (kernel : KernelFn)
    (fuel : Nat) (t0 u : TensorData) (pt0 : _ProxyTensor) (s : TrState)
    (hty : t0.ty = .plainTensor)
    (hbound : s.tensor_tracker.lookup t0.tid = some pt0)
    (hconst : pt0.constant = none)
    (hinplace : isInplaceName func.oid.packet = true)
    (hddtag : func.tags.contains OpTag.dataDependentOutput = false)
    (hdt : decompTable func.oid = none)
    (hdd0 : defaultDecompose func.oid = none)
    (hker : kernel func.oid [.leaf (.tensor t0)] [] = .leaf (.tensor u))
    (hmode : mode.emulatePrecisionCasts = false) :
    proxy_call mode func pre_dispatch decompTable defaultDecompose kernel fuel
        [.leaf (.tensor t0)] [] s
      = .ok (.res (.leaf (.tensor u)),
          set_meta s.graph.length (.leaf (.tensor u))
            (track_tensor u s.graph.length none
              { (create_proxy func.oid
                  [.leaf (.prox pt0.proxy)] [] func.oid.packet s).2 with
                attrProxy := (t0.tid, s.graph.length) ::
                  (create_proxy func.oid
                    [.leaf (.prox pt0.proxy)] [] func.oid.packet s).2.attrProxy })) := by
  have hlift : func.oid ≠ aten_lift_fresh := by
    intro h
    rw [h] at hinplace
    simp [aten_lift_fresh, isInplaceName] at hinplace
  have hcopy : func.oid ≠ aten_lift_fresh_copy := by
    intro h
    rw [h] at hinplace
    simp [aten_lift_fresh_copy, isInplaceName] at hinplace
  simp only [proxy_call, flattenArgsKw, PyTree.flatten, PyTree.flattenL, PyTree.flattenD,
    List.append_nil, canHandleAllTensors, List.all_cons, List.all_nil, can_handle_tensor,
    HANDLED_TYPES, hty, List.contains_cons, hdt, hdd0, fetchArg, fetch_object_proxy,
    get_proxy_slot, lookup_tracker, hbound, all_constant_check, any_constant_check,
    List.map_cons, List.map_nil, List.any_cons, List.any_nil, hconst,
    hddtag, mapTreeListM, mapTreeDictM, mapTreeM, proxyMapLeaf,
    hlift, hcopy, inplaceAttr, hinplace, proxy_call_constant,
    track_tensor_tree, wrap_with_proxy, maybe_record_pointwise_barrier, hmode, hker]
  simp [hker, hconst, hcopy, hmode, hbound, hinplace, wrap_with_proxy, create_proxy,
    has_proxy_slot, get_proxy_slot, lookup_tracker]

/-- C4: an intercepted operator whose name marks it as in-place
(trailing underscore, not a private name), applied to a tracked tensor
(bound, here without captured constant), rebinds the tensor: after
`proxy_call`, looking the same runtime tensor up (`u.tid = t0.tid` —
the kernel returns the mutated tensor itself) yields the proxy of the
newly created call node (index `s.graph.length`, whose target is the
operator), which differs from the pre-mutation proxy. -/
theorem inplace_op_rebinds_tensor_slot
    (mode : ProxyMode) (func : OpInfo) (pre_dispatch : Bool)
    (decompTable defaultDecompose : OpId → Option DecompFn) (kernel : KernelFn)
    (fuel : Nat) (t0 u : TensorData) (pt0 : _ProxyTensor) (s : TrState)
    (hty : t0.ty = .plainTensor)
    (hbound : s.tensor_tracker.lookup t0.tid = some pt0)
    (hconst : pt0.constant = none)
    (hold : pt0.proxy < s.graph.length)
    (hinplace : isInplaceName func.oid.packet = true)
    (hddtag : func.tags.contains OpTag.dataDependentOutput = false)
    (hdt : decompTable func.oid = none)
    (hdd0 : defaultDecompose func.oid = none)
    (hker : kernel func.oid [.leaf (.tensor t0)] [] = .leaf (.tensor u))
    (hu : u.tid = t0.tid)
    (hmode : mode.emulatePrecisionCasts = false) :
    ∃ s2,
      proxy_call mode func pre_dispatch decompTable defaultDecompose kernel fuel
          [.leaf (.tensor t0)] [] s = .ok (.res (.leaf (.tensor u)), s2)
      ∧ get_proxy_slot (.tensorK t0) s2 none (fun v => v)
          = .ok (.tensorP ⟨s.graph.length, none⟩)
      ∧ (s2.graph.get? s.graph.length).map Node.target = some func.oid
      ∧ pt0.proxy ≠ s.graph.length := by
  refine ⟨_, inplace_run_eq mode func pre_dispatch decompTable defaultDecompose kernel
      fuel t0 u pt0 s hty hbound hconst hinplace hddtag hdt hdd0 hker hmode, ?_, ?_,
      Nat.ne_of_lt hold⟩
  · simp only [get_proxy_slot, lookup_tracker, (set_meta_tensor_tracker _ _ _).1,
      (track_tensor_state _ _ _ _).1]
    rw [hu]
    simp [List.lookup]
  · rw [(set_meta_graph_targets _ _ _ _).1, (track_tensor_state _ _ _ _).2]
    simp [create_proxy, List.get?_concat_length]

/-- Concrete instantiation of the C4 theorem: `add_` on a tracked
0-dim tensor over a one-node graph; the lookup after the call returns
proxy 1, the new `add_` node, not the old proxy 0. -/
theorem inplace_op_rebinds_tensor_slot_witness :
    ∃ s2,
      proxy_call ⟨false, true, 0, false⟩ ⟨⟨"add_", "Tensor"⟩, []⟩ false
          (fun _ => none) (fun _ => none)
          (fun _ _ _ => .leaf (.tensor ⟨4, .plainTensor, false, false, "float32", .lit 1, [], [], .lit 0, [.i 3]⟩))
          5 [.leaf (.tensor ⟨4, .plainTensor, false, false, "float32", .lit 1, [], [], .lit 0, [.i 1]⟩)] []
          ⟨[(4, ⟨0, none⟩)], [], [], [], [⟨⟨"placeholder", ""⟩, [], [], "x", none, false⟩], [], 10⟩
        = .ok (.res (.leaf (.tensor ⟨4, .plainTensor, false, false, "float32", .lit 1, [], [], .lit 0, [.i 3]⟩)), s2)
      ∧ get_proxy_slot
          (.tensorK ⟨4, .plainTensor, false, false, "float32", .lit 1, [], [], .lit 0, [.i 1]⟩)
          s2 none (fun v => v) = .ok (.tensorP ⟨1, none⟩)
      ∧ (s2.graph.get? 1).map Node.target = some ⟨"add_", "Tensor"⟩
      ∧ (0 : Nat) ≠ 1 :=
  inplace_op_rebinds_tensor_slot ⟨false, true, 0, false⟩ ⟨⟨"add_", "Tensor"⟩, []⟩ false
    (fun _ => none) (fun _ => none)
    (fun _ _ _ => .leaf (.tensor ⟨4, .plainTensor, false, false, "float32", .lit 1, [], [], .lit 0, [.i 3]⟩))
    5 ⟨4, .plainTensor, false, false, "float32", .lit 1, [], [], .lit 0, [.i 1]⟩
    ⟨4, .plainTensor, false, false, "float32", .lit 1, [], [], .lit 0, [.i 3]⟩ ⟨0, none⟩
    ⟨[(4, ⟨0, none⟩)], [], [], [], [⟨⟨"placeholder", ""⟩, [], [], "x", none, false⟩], [], 10⟩
    rfl rfl rfl (by decide) (by decide) (by decide) rfl rfl rfl rfl rfl

/-- Auxiliary: the full run of `proxy_call` on the ownership-taking
primitive `lift_fresh` with one fresh (untracked) plain-tensor
argument and a small output: the recorded node and the real execution
both use the substituted `lift_fresh_copy`, and the captured constant
is a clone of the pre-copy argument. -/
theorem lift_run_eq
    (mode : ProxyMode) (tags : List OpTag) (pre_dispatch : Bool)
    (decompTable defaultDecompose : OpId → Option DecompFn) (kernel : KernelFn)
    (fuel : Nat) (t0 u : TensorData) (s : TrState)
    (hty : t0.ty = .plainTensor)
    (hfresh : s.tensor_tracker.lookup t0.tid = none)
    (hddtag : tags.contains OpTag.dataDependentOutput = false)
    (hdt : decompTable aten_lift_fresh = none)
    (hdd0 : defaultDecompose aten_lift_fresh = none)
    (hker : kernel aten_lift_fresh_copy [.leaf (.tensor t0)] [] = .leaf (.tensor u))
    (hnum : u.numelD.hint ≤ CONSTANT_NUMEL_LIMIT)
    (hmode : mode.emulatePrecisionCasts = false) :
    proxy_call mode ⟨aten_lift_fresh, tags⟩ pre_dispatch decompTable defaultDecompose kernel fuel
        [.leaf (.tensor t0)] [] s
      = .ok (.res (.leaf (.tensor u)),
          set_meta s.graph.length (.leaf (.tensor u))
            (track_tensor u s.graph.length (some (cloneTensor s.nextId t0))
              { (create_proxy aten_lift_fresh_copy
                  [.leaf (.rtv (.tensor t0))] [] aten_lift_fresh_copy.packet s).2 with
                nextId := (create_proxy aten_lift_fresh_copy
                  [.leaf (.rtv (.tensor t0))] [] aten_lift_fresh_copy.packet s).2.nextId + 1 })) := by
  have hnip : isInplaceName aten_lift_fresh_copy.packet = false := by decide
  simp only [proxy_call, flattenArgsKw, PyTree.flatten, PyTree.flattenL, PyTree.flattenD,
    List.append_nil, canHandleAllTensors, List.all_cons, List.all_nil, can_handle_tensor,
    HANDLED_TYPES, hty, List.contains_cons, hdt, hdd0, fetchArg, fetch_object_proxy,
    get_proxy_slot, lookup_tracker, hfresh, all_constant_check, any_constant_check,
    List.map_cons, List.map_nil, List.any_cons, List.any_nil,
    hddtag, mapTreeListM, mapTreeDictM, mapTreeM, proxyMapLeaf,
    inplaceAttr, hnip, proxy_call_constant, hnum,
    track_tensor_tree, wrap_with_proxy, maybe_record_pointwise_barrier, hmode, hker]
  simp [hker, hmode, hnum, hnip, wrap_with_proxy, create_proxy, cloneTensor,
    has_proxy_slot, get_proxy_slot, lookup_tracker, hfresh]

/-- C8: intercepting `lift_fresh` records a call node for its copying
variant `lift_fresh_copy` (the kernel is also invoked with the
substituted operator), and when the output is within the one-element
bound, the captured constant bound for the output is a clone of the
original pre-copy input argument — same metadata and data, fresh
identity — not the operator's result. -/
theorem lift_fresh_records_copy_and_clones_constant
    (mode : ProxyMode) (tags : List OpTag) (pre_dispatch : Bool)
    (decompTable defaultDecompose : OpId → Option DecompFn) (kernel : KernelFn)
    (fuel : Nat) (t0 u : TensorData) (s : TrState)
    (hty : t0.ty = .plainTensor)
    (hfresh : s.tensor_tracker.lookup t0.tid = none)
    (hddtag : tags.contains OpTag.dataDependentOutput = false)
    (hdt : decompTable aten_lift_fresh = none)
    (hdd0 : defaultDecompose aten_lift_fresh = none)
    (hker : kernel aten_lift_fresh_copy [.leaf (.tensor t0)] [] = .leaf (.tensor u))
    (hnum : u.numelD.hint ≤ CONSTANT_NUMEL_LIMIT)
    (hmode : mode.emulatePrecisionCasts = false) :
    ∃ s2,
      proxy_call mode ⟨aten_lift_fresh, tags⟩ pre_dispatch decompTable defaultDecompose
          kernel fuel [.leaf (.tensor t0)] [] s
        = .ok (.res (.leaf (.tensor u)), s2)
      ∧ (s2.graph.get? s.graph.length).map Node.target = some aten_lift_fresh_copy
      ∧ get_proxy_slot (.tensorK u) s2 none (fun v => v)
          = .ok (.tensorP ⟨s.graph.length, some (cloneTensor s.nextId t0)⟩) := by
  refine ⟨_, lift_run_eq mode tags pre_dispatch decompTable defaultDecompose kernel
      fuel t0 u s hty hfresh hddtag hdt hdd0 hker hnum hmode, ?_, ?_⟩
  · rw [(set_meta_graph_targets _ _ _ _).1, (track_tensor_state _ _ _ _).2]
    simp [create_proxy, List.get?_concat_length]
  · simp only [get_proxy_slot, lookup_tracker, (set_meta_tensor_tracker _ _ _).1,
      (track_tensor_state _ _ _ _).1]
    simp [List.lookup]

/-- Concrete instantiation of the C8 theorem: lifting a fresh one-element
tensor records a `lift_fresh_copy` node and stores, for the output
tensor, a constant equal to the input with a fresh object id. -/
theorem lift_fresh_records_copy_and_clones_constant_witness :
    ∃ s2,
      proxy_call ⟨false, true, 0, false⟩ ⟨aten_lift_fresh, []⟩ false
          (fun _ => none) (fun _ => none)
          (fun _ _ _ => .leaf (.tensor ⟨3, .plainTensor, false, false, "float32", .lit 1, [], [], .lit 0, [.i 9]⟩))
          5 [.leaf (.tensor ⟨2, .plainTensor, false, false, "float32", .lit 1, [], [], .lit 0, [.i 9]⟩)] []
          ⟨[], [], [], [], [], [], 10⟩
        = .ok (.res (.leaf (.tensor ⟨3, .plainTensor, false, false, "float32", .lit 1, [], [], .lit 0, [.i 9]⟩)), s2)
      ∧ (s2.graph.get? 0).map Node.target = some aten_lift_fresh_copy
      ∧ get_proxy_slot
          (.tensorK ⟨3, .plainTensor, false, false, "float32", .lit 1, [], [], .lit 0, [.i 9]⟩)
          s2 none (fun v => v)
          = .ok (.tensorP ⟨0, some ⟨10, .plainTensor, false, false, "float32", .lit 1, [], [], .lit 0, [.i 9]⟩⟩) :=
  lift_fresh_records_copy_and_clones_constant ⟨false, true, 0, false⟩ [] false
    (fun _ => none) (fun _ => none)
    (fun _ _ _ => .leaf (.tensor ⟨3, .plainTensor, false, false, "float32", .lit 1, [], [], .lit 0, [.i 9]⟩))
    5 ⟨2, .plainTensor, false, false, "float32", .lit 1, [], [], .lit 0, [.i 9]⟩
    ⟨3, .plainTensor, false, false, "float32", .lit 1, [], [], .lit 0, [.i 9]⟩
    ⟨[], [], [], [], [], [], 10⟩
    rfl rfl rfl rfl rfl rfl (by decide) rfl

/-- C1: for an operator tagged as producing a data-dependent output
(with no applicable decompositions and recognizable inputs): when the
arguments are fully constant, `proxy_call` computes the operator
directly on the captured constants and returns that raw result with
the state — in particular the graph — unchanged; otherwise, under
strict checking (`_error_on_data_dependent_ops`) with every tensor
argument real (non-fake), it raises the data-dependent error. -/
theorem data_dependent_guard_constant_or_error
    (mode : ProxyMode) (func : OpInfo) (pre_dispatch : Bool)
    (decompTable defaultDecompose : OpId → Option DecompFn) (kernel : KernelFn)
    (fuel : Nat) (args : List (PyTree RtVal)) (kwargs : List (String × PyTree RtVal))
    (s : TrState)
    (hdd : func.tags.contains OpTag.dataDependentOutput = true)
    (hdt : decompTable func.oid = none)
    (hdd0 : defaultDecompose func.oid = none)
    (hhandle : canHandleAllTensors mode s (flattenArgsKw args kwargs) = true) :
    (all_constant_check ((flattenArgsKw args kwargs).map (fetchArg s))
        (flattenArgsKw args kwargs) = true →
      proxy_call mode func pre_dispatch decompTable defaultDecompose kernel fuel args kwargs s
        = .ok (.res (kernel func.oid
            (mapArgsKwLeaves (constLeaf s) args kwargs).1
            (mapArgsKwLeaves (constLeaf s) args kwargs).2), s))
    ∧ (all_constant_check ((flattenArgsKw args kwargs).map (fetchArg s))
        (flattenArgsKw args kwargs) = false →
      mode.errorOnDataDependentOps = true →
      allTensorArgsReal args kwargs = true →
      proxy_call mode func pre_dispatch decompTable defaultDecompose kernel fuel args kwargs s
        = .error .dataDependentError) := by
  have hddm : OpTag.dataDependentOutput ∈ func.tags := by
    simpa using hdd
  constructor
  · intro hallc
    simp only [proxy_call]
    simp [hhandle, hdt, hdd0, hdd, hddm, hallc]
  · intro hallc hstrict hreal
    simp only [proxy_call]
    simp [hhandle, hdt, hdd0, hdd, hddm, hallc, hstrict, hreal]

/-- Concrete instantiation of the C1 theorem: extracting a scalar from
a tracked tensor whose slot carries a constant returns the kernel's
raw value with no new node; the identical call with the constant
missing, under strict mode with a real tensor, raises. -/
theorem data_dependent_guard_witness :
    proxy_call ⟨false, true, 0, false⟩ ⟨⟨"_local_scalar_dense", "default"⟩, [.dataDependentOutput]⟩
        false (fun _ => none) (fun _ => none) (fun _ _ _ => .leaf (.plain (.i 4))) 5
        [.leaf (.tensor ⟨1, .plainTensor, false, false, "float32", .lit 1, [], [], .lit 0, [.i 4]⟩)] []
        ⟨[(1, ⟨0, some ⟨7, .plainTensor, false, false, "float32", .lit 1, [], [], .lit 0, [.i 4]⟩⟩)], [], [], [], [], [], 10⟩
      = .ok (.res (.leaf (.plain (.i 4))),
          ⟨[(1, ⟨0, some ⟨7, .plainTensor, false, false, "float32", .lit 1, [], [], .lit 0, [.i 4]⟩⟩)], [], [], [], [], [], 10⟩)
    ∧ proxy_call ⟨false, true, 0, false⟩ ⟨⟨"_local_scalar_dense", "default"⟩, [.dataDependentOutput]⟩
        false (fun _ => none) (fun _ => none) (fun _ _ _ => .leaf (.plain (.i 4))) 5
        [.leaf (.tensor ⟨1, .plainTensor, false, false, "float32", .lit 1, [], [], .lit 0, [.i 4]⟩)] []
        ⟨[(1, ⟨0, none⟩)], [], [], [], [], [], 10⟩
      = .error .dataDependentError :=
  ⟨(data_dependent_guard_constant_or_error ⟨false, true, 0, false⟩
      ⟨⟨"_local_scalar_dense", "default"⟩, [.dataDependentOutput]⟩ false
      (fun _ => none) (fun _ => none) (fun _ _ _ => .leaf (.plain (.i 4))) 5
      [.leaf (.tensor ⟨1, .plainTensor, false, false, "float32", .lit 1, [], [], .lit 0, [.i 4]⟩)] []
      ⟨[(1, ⟨0, some ⟨7, .plainTensor, false, false, "float32", .lit 1, [], [], .lit 0, [.i 4]⟩⟩)], [], [], [], [], [], 10⟩
      (by decide) rfl rfl (by decide)).1 (by decide),
   (data_dependent_guard_constant_or_error ⟨false, true, 0, false⟩
      ⟨⟨"_local_scalar_dense", "default"⟩, [.dataDependentOutput]⟩ false
      (fun _ => none) (fun _ => none) (fun _ _ _ => .leaf (.plain (.i 4))) 5
      [.leaf (.tensor ⟨1, .plainTensor, false, false, "float32", .lit 1, [], [], .lit 0, [.i 4]⟩)] []
      ⟨[(1, ⟨0, none⟩)], [], [], [], [], [], 10⟩
      (by decide) rfl rfl (by decide)).2 (by decide) rfl (by decide)⟩

/-- C5: the captured constant computed for a newly created node is
present only when every resulting tensor is within the
`CONSTANT_NUMEL_LIMIT` bound (this is exactly the constant
`proxy_call` hands to the output-association walk); and a tensor
output associated with no constant is bound in the tensor tracker with
its captured constant `None`. -/
theorem captured_constant_requires_numel_limit
    (func2 : OpInfo) (args : List (PyTree RtVal)) (kwargs : List (String × PyTree RtVal))
    (out : PyTree RtVal) (allc anyc : Bool) (s0 : TrState) (kernel : KernelFn)
    (s : TrState) (c : Option (PyTree RtVal)) (s2 : TrState)
    (hrun : proxy_call_constant func2 args kwargs out allc anyc s0 kernel s = .ok (c, s2))
    (hsome : c.isSome = true) :
    out.allTensors tensor_numel_in_limit = true
    ∧ ∀ (u : TensorData) (p : Proxy) (st st2 : TrState),
        track_tensor_tree (.leaf (.tensor u)) (.leafP p) none st = .ok st2 →
        st2.tensor_tracker.lookup u.tid = some ⟨p, none⟩ := by
  constructor
  · simp only [proxy_call_constant] at hrun
    split at hrun
    · split at hrun
      · rename_i u
        split at hrun
        · rename_i hnum
          split at hrun
          · simp [PyTree.allTensors, PyTree.flatten, PyTree.flattenL,
              tensor_numel_in_limit, hnum]
          · exact absurd hrun (by simp)
        · split at hrun
          · rename_i hcond
            simp only [Bool.and_eq_true] at hcond
            exact hcond.2
          · simp only [Except.ok.injEq, Prod.mk.injEq] at hrun
            rw [← hrun.1] at hsome
            simp at hsome
      · exact absurd hrun (by simp)
    · split at hrun
      · rename_i hcond
        simp only [Bool.and_eq_true] at hcond
        exact hcond.2
      · simp only [Except.ok.injEq, Prod.mk.injEq] at hrun
        rw [← hrun.1] at hsome
        simp at hsome
  · intro u p st st2 h
    simp only [track_tensor_tree, wrap_with_proxy, Except.ok.injEq] at h
    rw [← h, (set_meta_tensor_tracker _ _ _).1, (track_tensor_state _ _ _ _).1]
    simp [List.lookup]

/-- Concrete instantiation of the C5 theorem: a fully-constant
recomputation of a one-element output yields a present constant and a
one-element output tree, and a constant-free tensor output is tracked
with constant `None`. -/
theorem captured_constant_requires_numel_limit_witness :
    (PyTree.leaf (.tensor ⟨3, .plainTensor, false, false, "float32", .lit 1, [], [], .lit 0, [.i 8]⟩)).allTensors
        tensor_numel_in_limit = true
    ∧ (set_meta 0
        (.leaf (.tensor ⟨3, .plainTensor, false, false, "float32", .lit 1, [], [], .lit 0, [.i 8]⟩))
        (track_tensor ⟨3, .plainTensor, false, false, "float32", .lit 1, [], [], .lit 0, [.i 8]⟩ 0 none
          ⟨[], [], [], [], [], [], 0⟩)).tensor_tracker.lookup 3 = some ⟨0, none⟩ := by
  have h := captured_constant_requires_numel_limit
    ⟨⟨"add", "Tensor"⟩, []⟩
    [.leaf (.tensor ⟨1, .plainTensor, false, false, "float32", .lit 1, [], [], .lit 0, [.i 4]⟩)] []
    (.leaf (.tensor ⟨3, .plainTensor, false, false, "float32", .lit 1, [], [], .lit 0, [.i 8]⟩))
    true true
    ⟨[(1, ⟨0, some ⟨7, .plainTensor, false, false, "float32", .lit 1, [], [], .lit 0, [.i 4]⟩⟩)], [], [], [], [], [], 10⟩
    (fun _ _ _ => .leaf (.tensor ⟨9, .plainTensor, false, false, "float32", .lit 1, [], [], .lit 0, [.i 8]⟩))
    ⟨[], [], [], [], [], [], 0⟩
    (some (.leaf (.tensor ⟨9, .plainTensor, false, false, "float32", .lit 1, [], [], .lit 0, [.i 8]⟩)))
    ⟨[], [], [], [], [], [], 0⟩ rfl rfl
  exact ⟨h.1, h.2 ⟨3, .plainTensor, false, false, "float32", .lit 1, [], [], .lit 0, [.i 8]⟩ 0
    ⟨[], [], [], [], [], [], 0⟩ _ rfl⟩

end Theorems

end ProxyTensor
